import Mathlib

/-!
Shallow embedding of the school-image backend (`src/main.py`).

The handlers `school_images` and `add_school_image` are translated from the
source.  The document-store collaborator (the `database` module: `db`,
`get_documents`, `create_document`) is not part of the repository snapshot,
so it is modelled from the specification of the Store Access Shim.
-/

/-- JSON-style value stored in a document field. -/
inductive Value where
  | null : Value
  | str : String → Value
  | bool : Bool → Value
  | list : List String → Value
deriving DecidableEq, Repr

/-- A document is an association list of field names to values
(the Python side uses a dict; keys are unique there, and lookups below
take the first matching key). -/
abbrev Doc := List (String × Value)

/-- `d.get(k, dflt)` of a Python dict: the value at key `k`, or `dflt`
when the key is absent. -/
def docGetD (d : Doc) (k : String) (dflt : Value) : Value :=
  match d.find? (fun p => p.1 == k) with
  | some p => p.2
  | none => dflt

/-- `d.get(k)` of a Python dict: the value at key `k`, or `None` (null)
when the key is absent. -/
def docGet (d : Doc) (k : String) : Value :=
  docGetD d k Value.null

/-- The keys of a document. -/
def docKeys (d : Doc) : List String :=
  d.map Prod.fst

/-- State of the connected document store.  `queryError` / `insertError`
model an exception thrown by the corresponding store operation, carrying
the exception text. -/
structure Database where
  collections : List (String × List Doc)
  queryError : Option String := none
  insertError : Option String := none
  nextId : Nat := 0
deriving DecidableEq, Repr

/-- The documents of one named collection in a collection table
(empty when the collection does not exist yet). -/
def lookupColl (cols : List (String × List Doc)) (name : String) : List Doc :=
  match cols.find? (fun p => p.1 == name) with
  | some p => p.2
  | none => []

/-- The documents of one named collection of the store. -/
def getCollection (database : Database) (name : String) : List Doc :=
  lookupColl database.collections name

/-- A document matches a filter when every filter pair equals the
document's value at that key. -/
def matchesFilter (d : Doc) (filt : List (String × Value)) : Bool :=
  filt.all (fun kv => docGet d kv.1 == kv.2)

/-- Modelled from the spec: the Store Access Shim operation
"query documents matching a filter, capped at N, in store order"
(`get_documents` of the `database` module, whose source is not in the
repository snapshot).  A store exception is modelled as an error result
carrying the exception text. -/
def get_documents (database : Database) (collection : String)
    (filt : List (String × Value)) (limit : Int) : Except String (List Doc) :=
  match database.queryError with
  | some msg => Except.error msg
  | none =>
      Except.ok
        (((getCollection database collection).filter
            (fun d => matchesFilter d filt)).take limit.toNat)

/-- Insert a document into a named collection, appending to store order. -/
def insertDoc : List (String × List Doc) → String → Doc → List (String × List Doc)
  | [], name, d => [(name, [d])]
  | (n, ds) :: rest, name, d =>
      if n == name then (n, ds ++ [d]) :: rest
      else (n, ds) :: insertDoc rest name d

/-- Modelled from the spec: the Store Access Shim operation
"insert one document, return its generated identifier"
(`create_document` of the `database` module, whose source is not in the
repository snapshot).  A store exception is modelled as an error result
carrying the exception text; the updated store is returned alongside the
generated identifier. -/
def create_document (database : Database) (collection : String) (d : Doc) :
    Except String (Nat × Database) :=
  match database.insertError with
  | some msg => Except.error msg
  | none =>
      Except.ok (database.nextId,
        { database with
            collections := insertDoc database.collections collection d,
            nextId := database.nextId + 1 })

/-- Outcome of a handler: a successful value, or an `HTTPException`
with a status code and a detail string. -/
inductive ApiResult (α : Type) where
  | ok : α → ApiResult α
  | httpError : Nat → String → ApiResult α
deriving DecidableEq, Repr

/-- The response body of the listing endpoint. -/
structure ImagesResponse where
  images : List Doc
deriving DecidableEq, Repr

/-- The projection applied to each store document in `school_images`:
`d.get("url")`, `d.get("title")`, `d.get("tags", [])`. -/
def projectImage (d : Doc) : Doc :=
  [("url", docGet d "url"),
   ("title", docGet d "title"),
   ("tags", docGetD d "tags" (Value.list []))]

/-- The fixed fallback placeholder list of `school_images`. -/
def placeholders : List Doc :=
  [[("url", Value.str "https://images.unsplash.com/photo-1460518451285-97b6aa326961?q=80&w=1600&auto=format&fit=crop"),
    ("title", Value.str "Campus lawn (placeholder)"),
    ("tags", Value.list ["campus", "placeholder"])],
   [("url", Value.str "https://images.unsplash.com/photo-1523580846011-d3a5bc25702b?q=80&w=1600&auto=format&fit=crop"),
    ("title", Value.str "Courtyard (placeholder)"),
    ("tags", Value.list ["courtyard", "placeholder"])],
   [("url", Value.str "https://images.unsplash.com/photo-1562774053-701939374585?q=80&w=1600&auto=format&fit=crop"),
    ("title", Value.str "Hallway (placeholder)"),
    ("tags", Value.list ["hallway", "placeholder"])]]

/-- Handler of `GET /api/school-images` (`school_images` in `src/main.py`).
When `db` is absent the query is skipped and `images` stays empty; a store
exception becomes a 500 error with the exception text as detail; an empty
result is replaced by the placeholder list. -/
def school_images (db : Option Database) (limit : Int) : ApiResult ImagesResponse :=
  let queryResult : Except String (List Doc) :=
    match db with
    | none => Except.ok []
    | some database =>
        get_documents database "schoolimage" [("approved", Value.bool true)] limit
  match queryResult with
  | Except.error e => ApiResult.httpError 500 e
  | Except.ok docs =>
      let images := docs.map projectImage
      ApiResult.ok ⟨if images.isEmpty then placeholders else images⟩

/-- The validated creation payload (`SchoolImageIn` in `src/main.py`).
`url` is required (already validated as an absolute URL by the schema
layer); `title` defaults to `None`; `tags` defaults to `[]`; `approved`
defaults to `true`. -/
structure SchoolImageIn where
  url : String
  title : Option String := none
  tags : Option (List String) := some []
  approved : Bool := true
deriving DecidableEq, Repr

/-- `payload.model_dump()`: every declared field is emitted, optional
fields with no value as null. -/
def SchoolImageIn.model_dump (p : SchoolImageIn) : Doc :=
  [("url", Value.str p.url),
   ("title", match p.title with | some t => Value.str t | none => Value.null),
   ("tags", match p.tags with | some ts => Value.list ts | none => Value.null),
   ("approved", Value.bool p.approved)]

/-- Handler of `POST /api/school-images` (`add_school_image` in
`src/main.py`).  With no store it fails with 503 before any insertion;
otherwise it inserts the dumped payload and returns the generated id
together with the updated store. -/
def add_school_image (db : Option Database) (payload : SchoolImageIn) :
    ApiResult (Nat × Database) :=
  match db with
  | none => ApiResult.httpError 503 "Database not available"
  | some database =>
      match create_document database "schoolimage" payload.model_dump with
      | Except.error e => ApiResult.httpError 500 e
      | Except.ok (newId, db2) => ApiResult.ok (newId, db2)

/-! ## Helper lemmas -/

theorem docGetD_of_not_mem (d : Doc) (k : String) (dflt : Value)
    (h : k ∉ docKeys d) : docGetD d k dflt = dflt := by
  unfold docGetD
  have hfind : d.find? (fun p => p.1 == k) = none := by
    rw [List.find?_eq_none]
    intro x hx
    simp only [beq_iff_eq]
    intro hxk
    exact h (hxk ▸ List.mem_map_of_mem Prod.fst hx)
  rw [hfind]

theorem docGet_of_not_mem (d : Doc) (k : String)
    (h : k ∉ docKeys d) : docGet d k = Value.null :=
  docGetD_of_not_mem d k Value.null h

theorem docGetD_of_find (d : Doc) (k : String) (dflt v : Value)
    (h : d.find? (fun p => p.1 == k) = some (k, v)) : docGetD d k dflt = v := by
  unfold docGetD
  rw [h]

theorem lookupColl_insertDoc (cols : List (String × List Doc)) (name : String)
    (d : Doc) :
    lookupColl (insertDoc cols name d) name = lookupColl cols name ++ [d] := by
  induction cols with
  | nil => simp [insertDoc, lookupColl, List.find?]
  | cons hd tl ih =>
      obtain ⟨n, ds⟩ := hd
      by_cases hn : n = name
      · subst hn
        simp [insertDoc, lookupColl, List.find?]
      · have hb : (n == name) = false := beq_eq_false_iff_ne.mpr hn
        simp only [insertDoc, hb, if_false]
        simp only [lookupColl, List.find?, hb]
        exact ih

/-! ## Claim theorems -/

/-- C2: whenever the store handle is absent, the listing operation returns
exactly the fixed 3-entry placeholder list, in its fixed order, for every
value of `limit`. -/
theorem school_images_absent_store_placeholders (limit : Int) :
    school_images none limit = ApiResult.ok ⟨placeholders⟩ := rfl

/-- C6: for every valid creation payload, when no store connection exists
the creation operation fails with a 503 service-unavailable response; no
insertion is performed (no identifier and no updated store are ever
produced on this path). -/
theorem add_school_image_absent_store_503 (payload : SchoolImageIn) :
    add_school_image none payload
      = ApiResult.httpError 503 "Database not available" := rfl

/-- C7: the listing operation produces an error response exactly when the
store query throws: the response is then a 500 whose detail is the
exception text, and an absent store (`db = none`) never yields an error
response. -/
theorem school_images_error_characterisation (db : Option Database)
    (limit : Int) (status : Nat) (detail : String) :
    school_images db limit = ApiResult.httpError status detail ↔
      status = 500 ∧
        ∃ database, db = some database ∧ database.queryError = some detail := by
  cases db with
  | none => simp [school_images]
  | some database =>
      cases h : database.queryError with
      | none => simp [school_images, get_documents, h]
      | some msg =>
          simp only [school_images, get_documents, h]
          constructor
          · intro he
            injection he with h1 h2
            exact ⟨h1.symm, database, rfl, h2 ▸ h⟩
          · rintro ⟨h1, dbv, hdb, herr⟩
            injection hdb with hdb
            subst hdb h1
            rw [h] at herr
            injection herr with herr
            rw [herr]

/-- C8: every entry of a successful listing response has exactly the keys
`url`, `title`, `tags`, in that order — the projection drops every other
stored field (such as `approved` or an identifier), and no other key
appears in a listed entry. -/
theorem school_images_entry_keys (db : Option Database) (limit : Int)
    (resp : ImagesResponse)
    (h : school_images db limit = ApiResult.ok resp) :
    ∀ e ∈ resp.images, docKeys e = ["url", "title", "tags"] := by
  have hproj : ∀ d : Doc, docKeys (projectImage d) = ["url", "title", "tags"] :=
    fun d => rfl
  have hplace : ∀ e ∈ placeholders, docKeys e = ["url", "title", "tags"] := by
    decide
  cases db with
  | none =>
      injection h with h
      subst h
      exact hplace
  | some database =>
      cases hq : database.queryError with
      | some msg => simp [school_images, get_documents, hq] at h
      | none =>
          simp only [school_images, get_documents, hq] at h
          injection h with h
          subst h
          intro e he
          simp only [ImagesResponse.mk.injEq] at he
          by_cases hempty :
              (((getCollection database "schoolimage").filter
                  (fun d => matchesFilter d [("approved", Value.bool true)])).take
                  limit.toNat).map projectImage = []
          · rw [hempty] at he
            simp only [List.isEmpty_nil, if_true] at he
            exact hplace e he
          · rw [if_neg (by simpa [List.isEmpty_iff] using hempty)] at he
            obtain ⟨d, _, rfl⟩ := List.mem_map.mp he
            exact hproj d

/-- Witness for C8: a store document carrying extra fields (`approved` and
an identifier) is listed with exactly the keys `url`, `title`, `tags`. -/
theorem school_images_entry_keys_witness :
    docKeys [("url", Value.str "https://example.com/a.jpg"),
             ("title", Value.null), ("tags", Value.list [])]
      = ["url", "title", "tags"] :=
  school_images_entry_keys
    (some { collections := [("schoolimage",
        [[("approved", Value.bool true), ("_id", Value.str "abc123"),
          ("url", Value.str "https://example.com/a.jpg")]])] })
    5
    ⟨[[("url", Value.str "https://example.com/a.jpg"),
       ("title", Value.null), ("tags", Value.list [])]]⟩
    (by decide)
    [("url", Value.str "https://example.com/a.jpg"),
     ("title", Value.null), ("tags", Value.list [])]
    (by decide)

/-- C10: the listing projection is total over arbitrary stored documents
(it is a total function by construction, as Python `dict.get` never
raises): a document missing the `url` or `title` key is listed with null
for that field, the empty-list default for `tags` applies only when the
`tags` key is absent, and a `tags` key present with any value — null in
particular — passes through unchanged. -/
theorem projectImage_defaults (d : Doc) :
    ("url" ∉ docKeys d → docGet (projectImage d) "url" = Value.null) ∧
    ("title" ∉ docKeys d → docGet (projectImage d) "title" = Value.null) ∧
    ("tags" ∉ docKeys d → docGet (projectImage d) "tags" = Value.list []) ∧
    (∀ v : Value, d.find? (fun p => p.1 == "tags") = some ("tags", v) →
        docGet (projectImage d) "tags" = v) := by
  have hurl : docGet (projectImage d) "url" = docGet d "url" := rfl
  have htitle : docGet (projectImage d) "title" = docGet d "title" := rfl
  have htags : docGet (projectImage d) "tags" = docGetD d "tags" (Value.list []) := rfl
  refine ⟨fun h => ?_, fun h => ?_, fun h => ?_, fun v h => ?_⟩
  · rw [hurl]; exact docGet_of_not_mem d "url" h
  · rw [htitle]; exact docGet_of_not_mem d "title" h
  · rw [htags]; exact docGetD_of_not_mem d "tags" (Value.list []) h
  · rw [htags]; exact docGetD_of_find d "tags" (Value.list []) v h

/-- Witness for C10: applied to a document whose only key is `tags` with a
null value (so `url` and `title` are absent and the listed `tags` is null,
not the empty list), and to the empty document (where the empty-list
default fires). -/
theorem projectImage_defaults_witness :
    docGet (projectImage [("tags", Value.null)]) "url" = Value.null ∧
    docGet (projectImage [("tags", Value.null)]) "title" = Value.null ∧
    docGet (projectImage [("tags", Value.null)]) "tags" = Value.null ∧
    docGet (projectImage []) "tags" = Value.list [] :=
  ⟨(projectImage_defaults [("tags", Value.null)]).1 (by decide),
   (projectImage_defaults [("tags", Value.null)]).2.1 (by decide),
   (projectImage_defaults [("tags", Value.null)]).2.2.2 Value.null (by decide),
   (projectImage_defaults []).2.2.1 (by decide)⟩

/-- On a successful listing against a connected store, the images are
either the placeholders or the projections of the capped filtered query
result. -/
theorem school_images_images_cases (database : Database) (limit : Int)
    (resp : ImagesResponse)
    (h : school_images (some database) limit = ApiResult.ok resp) :
    resp.images = placeholders ∨
      resp.images = (((getCollection database "schoolimage").filter
          (fun d => matchesFilter d [("approved", Value.bool true)])).take
            limit.toNat).map projectImage := by
  cases hq : database.queryError with
  | some msg => simp [school_images, get_documents, hq] at h
  | none =>
      simp only [school_images, get_documents, hq] at h
      injection h with h
      subst h
      by_cases hempty :
          ((((getCollection database "schoolimage").filter
              (fun d => matchesFilter d [("approved", Value.bool true)])).take
              limit.toNat).map projectImage).isEmpty = true
      · left; simp only [if_pos hempty]
      · right; simp only [if_neg hempty]

/-- C1: for every integer `limit ≥ 0`, when the store is connected and the
query returns at least one matching document, the listing returns at most
`limit` entries. -/
theorem school_images_respects_limit (database : Database) (limit : Int)
    (docs : List Doc) (h0 : 0 ≤ limit)
    (hq : get_documents database "schoolimage" [("approved", Value.bool true)]
            limit = Except.ok docs)
    (hne : docs ≠ []) :
    ∃ resp, school_images (some database) limit = ApiResult.ok resp ∧
      (resp.images.length : Int) ≤ limit := by
  have hqe : database.queryError = none := by
    unfold get_documents at hq
    cases hqe : database.queryError with
    | none => rfl
    | some msg => rw [hqe] at hq; exact absurd hq (by simp)
  have hdocs : docs = ((getCollection database "schoolimage").filter
      (fun d => matchesFilter d [("approved", Value.bool true)])).take
        limit.toNat := by
    unfold get_documents at hq
    rw [hqe] at hq
    injection hq with hq
    exact hq.symm
  refine ⟨⟨docs.map projectImage⟩, ?_, ?_⟩
  · simp only [school_images, get_documents, hqe, ← hdocs]
    rw [if_neg]
    simp only [List.isEmpty_iff, List.map_eq_nil_iff]
    exact hne
  · have hlen : docs.length ≤ limit.toNat := by
      rw [hdocs]
      exact List.length_take_le _ _
    simp only [List.length_map]
    omega

/-- Witness for C1: a store holding one approved record, queried with
`limit = 2`, lists at most 2 entries. -/
theorem school_images_respects_limit_witness :
    ∃ resp,
      school_images
        (some { collections := [("schoolimage",
          [[("url", Value.str "https://example.com/a.jpg"),
            ("approved", Value.bool true)]])] }) 2
        = ApiResult.ok resp ∧ (resp.images.length : Int) ≤ 2 :=
  school_images_respects_limit
    { collections := [("schoolimage",
        [[("url", Value.str "https://example.com/a.jpg"),
          ("approved", Value.bool true)]])] }
    2
    [[("url", Value.str "https://example.com/a.jpg"),
      ("approved", Value.bool true)]]
    (by decide) rfl (by decide)

/-- C3: when the store is present but the approved-filtered query returns
zero matching documents, the listing returns the fixed 3-entry placeholder
list — the fallback triggers on an empty result, not only on store
absence. -/
theorem school_images_empty_result_placeholders (database : Database)
    (limit : Int)
    (hq : get_documents database "schoolimage" [("approved", Value.bool true)]
            limit = Except.ok []) :
    school_images (some database) limit = ApiResult.ok ⟨placeholders⟩ := by
  simp [school_images, hq]

/-- Witness for C3: a connected store whose only record is unapproved
yields the placeholder list. -/
theorem school_images_empty_result_placeholders_witness :
    school_images
      (some { collections := [("schoolimage",
        [[("url", Value.str "https://example.com/a.jpg"),
          ("approved", Value.bool false)]])] }) 12
      = ApiResult.ok ⟨placeholders⟩ :=
  school_images_empty_result_placeholders
    { collections := [("schoolimage",
        [[("url", Value.str "https://example.com/a.jpg"),
          ("approved", Value.bool false)]])] }
    12 rfl

/-- C4: every entry of a listing response is either a placeholder or the
projection of a stored document of the queried collection whose `approved`
field is `true`; no entry ever derives from a record with
`approved = false`. -/
theorem school_images_only_approved (db : Option Database) (limit : Int)
    (resp : ImagesResponse)
    (h : school_images db limit = ApiResult.ok resp) :
    ∀ img ∈ resp.images, img ∈ placeholders ∨
      ∃ database, db = some database ∧
        ∃ d ∈ getCollection database "schoolimage",
          docGet d "approved" = Value.bool true ∧ img = projectImage d := by
  cases db with
  | none =>
      injection h with h
      subst h
      intro img himg
      exact Or.inl himg
  | some database =>
      intro img himg
      rcases school_images_images_cases database limit resp h with hc | hc
      · rw [hc] at himg
        exact Or.inl himg
      · rw [hc] at himg
        obtain ⟨d, hd, rfl⟩ := List.mem_map.mp himg
        have hd2 := List.mem_filter.mp (List.take_subset _ _ hd)
        have happ : docGet d "approved" = Value.bool true := by
          have := hd2.2
          simp only [matchesFilter, List.all_cons, List.all_nil,
            Bool.and_true, beq_iff_eq] at this
          exact this
        exact Or.inr ⟨database, rfl, d, hd2.1, happ, rfl⟩

/-- Witness for C4: with one approved record in the store under
`limit = 5`, the single listed entry comes from that record. -/
theorem school_images_only_approved_witness :
    [("url", Value.str "https://example.com/a.jpg"),
     ("title", Value.null), ("tags", Value.list [])] ∈ placeholders ∨
      ∃ database,
        (some { collections := [("schoolimage",
          [[("url", Value.str "https://example.com/a.jpg"),
            ("approved", Value.bool true)]])] } : Option Database)
          = some database ∧
        ∃ d ∈ getCollection database "schoolimage",
          docGet d "approved" = Value.bool true ∧
            [("url", Value.str "https://example.com/a.jpg"),
             ("title", Value.null), ("tags", Value.list [])] = projectImage d :=
  school_images_only_approved
    (some { collections := [("schoolimage",
      [[("url", Value.str "https://example.com/a.jpg"),
        ("approved", Value.bool true)]])] })
    5
    ⟨[[("url", Value.str "https://example.com/a.jpg"),
       ("title", Value.null), ("tags", Value.list [])]]⟩
    (by decide)
    [("url", Value.str "https://example.com/a.jpg"),
     ("title", Value.null), ("tags", Value.list [])]
    (by decide)

/-- C5: creating a record whose `approved` field was omitted (so it took
its default `true`) against a connected store and then listing with a
sufficiently large `limit` yields an images list containing that record's
`url`, `title` and `tags`. -/
theorem create_then_list_roundtrip (database : Database)
    (payload : SchoolImageIn) (limit : Int)
    (happr : payload.approved = true)
    (hins : database.insertError = none)
    (hqe : database.queryError = none)
    (hlim : (getCollection database "schoolimage").length + 1 ≤ limit.toNat) :
    ∃ db2 resp,
      add_school_image (some database) payload
          = ApiResult.ok (database.nextId, db2) ∧
      school_images (some db2) limit = ApiResult.ok resp ∧
      ∃ e ∈ resp.images,
        docGet e "url" = Value.str payload.url ∧
        docGet e "title"
          = (match payload.title with
             | some t => Value.str t
             | none => Value.null) ∧
        docGet e "tags"
          = (match payload.tags with
             | some ts => Value.list ts
             | none => Value.null) := by
  obtain ⟨cols, qe, ie, nid⟩ := database
  simp only at hins hqe hlim
  subst hins hqe
  have hdump : matchesFilter payload.model_dump
      [("approved", Value.bool true)] = true := by
    simp only [matchesFilter, List.all_cons, List.all_nil, Bool.and_true]
    have hget : docGet payload.model_dump "approved"
        = Value.bool payload.approved := rfl
    rw [hget, happr]
    rfl
  have hcoll : getCollection
      ⟨insertDoc cols "schoolimage" payload.model_dump, none, none, nid + 1⟩
        "schoolimage"
      = getCollection ⟨cols, none, none, nid⟩ "schoolimage"
        ++ [payload.model_dump] :=
    lookupColl_insertDoc cols "schoolimage" payload.model_dump
  have hfilter : (getCollection ⟨cols, none, none, nid⟩ "schoolimage"
        ++ [payload.model_dump]).filter
        (fun d => matchesFilter d [("approved", Value.bool true)])
      = (getCollection ⟨cols, none, none, nid⟩ "schoolimage").filter
          (fun d => matchesFilter d [("approved", Value.bool true)])
        ++ [payload.model_dump] := by
    rw [List.filter_append]
    simp [hdump]
  have hlen : (((getCollection ⟨cols, none, none, nid⟩ "schoolimage").filter
        (fun d => matchesFilter d [("approved", Value.bool true)]))
        ++ [payload.model_dump]).length ≤ limit.toNat := by
    simp only [List.length_append, List.length_singleton]
    have := List.length_filter_le
      (fun d => matchesFilter d [("approved", Value.bool true)])
      (getCollection ⟨cols, none, none, nid⟩ "schoolimage")
    omega
  have htake : (((getCollection ⟨cols, none, none, nid⟩ "schoolimage").filter
        (fun d => matchesFilter d [("approved", Value.bool true)]))
        ++ [payload.model_dump]).take limit.toNat
      = ((getCollection ⟨cols, none, none, nid⟩ "schoolimage").filter
          (fun d => matchesFilter d [("approved", Value.bool true)]))
        ++ [payload.model_dump] :=
    List.take_of_length_le hlen
  refine ⟨⟨insertDoc cols "schoolimage" payload.model_dump, none, none,
      nid + 1⟩,
    ⟨((((getCollection ⟨cols, none, none, nid⟩ "schoolimage").filter
        (fun d => matchesFilter d [("approved", Value.bool true)]))
        ++ [payload.model_dump]).map projectImage)⟩, ?_, ?_, ?_⟩
  · simp [add_school_image, create_document]
  · simp only [school_images, get_documents, hcoll, hfilter, htake]
    rw [if_neg]
    simp
  · refine ⟨projectImage payload.model_dump, ?_, rfl, rfl, rfl⟩
    exact List.mem_map_of_mem projectImage
      (List.mem_append_right _ (List.mem_singleton.mpr rfl))

/-- Witness for C5: inserting a concrete payload (with `approved` left at
its default) into an empty connected store, then listing with
`limit = 12`, lists that record's `url`, `title` and `tags`. -/
theorem create_then_list_roundtrip_witness :
    ∃ db2 resp,
      add_school_image (some { collections := [] })
          { url := "https://example.com/a.jpg", title := some "Gym",
            tags := some ["gym"] }
          = ApiResult.ok (0, db2) ∧
      school_images (some db2) 12 = ApiResult.ok resp ∧
      ∃ e ∈ resp.images,
        docGet e "url" = Value.str "https://example.com/a.jpg" ∧
        docGet e "title"
          = (match (some "Gym" : Option String) with
             | some t => Value.str t
             | none => Value.null) ∧
        docGet e "tags"
          = (match (some ["gym"] : Option (List String)) with
             | some ts => Value.list ts
             | none => Value.null) :=
  create_then_list_roundtrip { collections := [] }
    { url := "https://example.com/a.jpg", title := some "Gym",
      tags := some ["gym"] }
    12 (by decide) (by decide) (by decide) (by decide)

/-- Counterexample to C9: creating a payload with `title` omitted against
an empty connected store does NOT store a record without a title value —
`model_dump` emits every declared field, so the stored record carries the
key `title` (with a null value): `"title"` is among the stored record's
keys. -/
theorem add_school_image_title_key_present :
    add_school_image (some { collections := [] })
        { url := "https://example.com/a.jpg" }
      = ApiResult.ok (0, ⟨[("schoolimage",
          [[("url", Value.str "https://example.com/a.jpg"),
            ("title", Value.null), ("tags", Value.list []),
            ("approved", Value.bool true)]])],
          none, none, 1⟩) ∧
    "title" ∈ docKeys [("url", Value.str "https://example.com/a.jpg"),
        ("title", Value.null), ("tags", Value.list []),
        ("approved", Value.bool true)] := by
  constructor
  · rfl
  · decide

/-- C9 (amended): for every valid creation payload in which `title` is
omitted, the stored record's `title` field is null — the key is stored,
with a null value. -/
theorem add_school_image_title_default_null (database : Database)
    (payload : SchoolImageIn)
    (hins : database.insertError = none)
    (ht : payload.title = none) :
    ∃ db2, add_school_image (some database) payload
        = ApiResult.ok (database.nextId, db2) ∧
      (getCollection db2 "schoolimage").getLast? = some payload.model_dump ∧
      docGet payload.model_dump "title" = Value.null ∧
      "title" ∈ docKeys payload.model_dump := by
  obtain ⟨cols, qe, ie, nid⟩ := database
  simp only at hins
  subst hins
  refine ⟨⟨insertDoc cols "schoolimage" payload.model_dump, qe, none,
      nid + 1⟩, ?_, ?_, ?_, ?_⟩
  · simp [add_school_image, create_document]
  · rw [show getCollection
        ⟨insertDoc cols "schoolimage" payload.model_dump, qe, none, nid + 1⟩
          "schoolimage"
        = getCollection ⟨cols, qe, none, nid⟩ "schoolimage"
          ++ [payload.model_dump] from
      lookupColl_insertDoc cols "schoolimage" payload.model_dump]
    exact List.getLast?_concat _
  · have : docGet payload.model_dump "title"
        = (match payload.title with
           | some t => Value.str t
           | none => Value.null) := rfl
    rw [this, ht]
  · simp [SchoolImageIn.model_dump, docKeys]

/-- Witness for C9 (amended): a concrete payload without a title is stored
with a null `title` value. -/
theorem add_school_image_title_default_null_witness :
    ∃ db2, add_school_image (some { collections := [] })
        { url := "https://example.com/b.jpg", tags := some ["b"] }
        = ApiResult.ok (0, db2) ∧
      (getCollection db2 "schoolimage").getLast?
        = some (SchoolImageIn.model_dump
            { url := "https://example.com/b.jpg", tags := some ["b"] }) ∧
      docGet (SchoolImageIn.model_dump
          { url := "https://example.com/b.jpg", tags := some ["b"] }) "title"
        = Value.null ∧
      "title" ∈ docKeys (SchoolImageIn.model_dump
          { url := "https://example.com/b.jpg", tags := some ["b"] }) :=
  add_school_image_title_default_null { collections := [] }
    { url := "https://example.com/b.jpg", tags := some ["b"] }
    (by decide) (by decide)
